import Mathlib

/-!
Verification development for the media-proxy repository.

The Go sources are shallowly embedded: byte strings (`[]byte` and Go `string`
payloads) become `List Nat` with entries below 256, machine words are `Nat`
reduced modulo 2^32 where the code relies on wrap-around, fallible operations
return `Except`/`Option`, and the HTTP handlers become total functions into an
explicit outcome type (a Go runtime panic is an explicit outcome constructor).
-/

set_option maxRecDepth 30000

namespace MediaProxy

/-- Byte strings: Go `[]byte` values and the byte contents of Go strings are
modelled as lists of naturals, each below 256. -/
abbrev Bytes := List Nat

/-- UTF-8 encoding of a single character, as used by Go's `[]byte(s)`
conversion of a string. -/
def utf8Char (c : Char) : Bytes :=
  let n := c.toNat
  if n < 0x80 then [n]
  else if n < 0x800 then [0xC0 + n / 0x40, 0x80 + n % 0x40]
  else if n < 0x10000 then
    [0xE0 + n / 0x1000, 0x80 + n / 0x40 % 0x40, 0x80 + n % 0x40]
  else
    [0xF0 + n / 0x40000, 0x80 + n / 0x1000 % 0x40, 0x80 + n / 0x40 % 0x40, 0x80 + n % 0x40]

/-- Go `[]byte(s)`: the UTF-8 bytes of a string. -/
def strBytes (s : String) : Bytes := s.toList.flatMap utf8Char

/-- Reduce a natural number to a 32-bit machine word. -/
def w32 (n : Nat) : Nat := n % 4294967296

/-- Left rotation of a 32-bit word by `k` bits. -/
def rotl32 (k x : Nat) : Nat := w32 (Nat.lor (Nat.shiftLeft x k) (Nat.shiftRight x (32 - k)))

/-- Right rotation of a 32-bit word by `k` bits. -/
def rotr32 (k x : Nat) : Nat := w32 (Nat.lor (Nat.shiftRight x k) (Nat.shiftLeft x (32 - k)))

/-- Big-endian 4-byte encoding of a 32-bit word. -/
def word32be (w : Nat) : Bytes := [w / 0x1000000 % 256, w / 0x10000 % 256, w / 0x100 % 256, w % 256]

/-- Big-endian 8-byte encoding of a 64-bit word. -/
def word64be (w : Nat) : Bytes := word32be (w / 4294967296) ++ word32be w

/-- Big-endian value of a byte string. -/
def beWord (b : Bytes) : Nat := b.foldl (fun a c => a * 256 + c) 0

/-- Split a byte string into consecutive chunks of `size` bytes; `fuel` bounds
the recursion (callers pass the list length, which suffices). -/
def chunksOf (size : Nat) : Nat → Bytes → List Bytes
  | 0, _ => []
  | _ + 1, [] => []
  | fuel + 1, l => l.take size :: chunksOf size fuel (l.drop size)

/-- The Merkle–Damgård padding shared by SHA-1 and SHA-256: append `0x80`,
zero bytes to 56 mod 64, then the 64-bit big-endian bit length. -/
def shaPad (msg : Bytes) : Bytes :=
  msg ++ [0x80] ++ List.replicate ((64 - (msg.length + 9) % 64) % 64) 0 ++ word64be (8 * msg.length)

/-- Working state of the SHA-1 compression function. -/
structure Sha1State where
  a : Nat
  b : Nat
  c : Nat
  d : Nat
  e : Nat

/-- SHA-1 round function, depending on the round index. -/
def sha1F (i b c d : Nat) : Nat :=
  if i < 20 then Nat.lor (Nat.land b c) (Nat.land (Nat.xor b 0xFFFFFFFF) d)
  else if i < 40 then Nat.xor (Nat.xor b c) d
  else if i < 60 then Nat.lor (Nat.lor (Nat.land b c) (Nat.land b d)) (Nat.land c d)
  else Nat.xor (Nat.xor b c) d

/-- SHA-1 round constants. -/
def sha1K (i : Nat) : Nat :=
  if i < 20 then 0x5A827999
  else if i < 40 then 0x6ED9EBA1
  else if i < 60 then 0x8F1BBCDC
  else 0xCA62C1D6

/-- Extend the 16 message words of a block by `n` further schedule words. -/
def sha1Extend : Nat → List Nat → List Nat
  | 0, w => w
  | n + 1, w =>
    let t := rotl32 1 (Nat.xor (Nat.xor (Nat.xor (w.getD (w.length - 3) 0) (w.getD (w.length - 8) 0))
      (w.getD (w.length - 14) 0)) (w.getD (w.length - 16) 0))
    sha1Extend n (w ++ [t])

/-- One SHA-1 round step on the working state, given `(round index, word)`. -/
def sha1Round (st : Sha1State) (iw : Nat × Nat) : Sha1State :=
  let t := w32 (rotl32 5 st.a + sha1F iw.1 st.b st.c st.d + st.e + sha1K iw.1 + iw.2)
  ⟨t, st.a, rotl32 30 st.b, st.c, st.d⟩

/-- SHA-1 compression of one 64-byte block into the chaining state. -/
def sha1Block (h : Sha1State) (block : Bytes) : Sha1State :=
  let ws := sha1Extend 64 ((chunksOf 4 16 block).map beWord)
  let st := ws.enum.foldl sha1Round h
  ⟨w32 (h.a + st.a), w32 (h.b + st.b), w32 (h.c + st.c), w32 (h.d + st.d), w32 (h.e + st.e)⟩

/-- SHA-1 of a byte string (crypto/sha1 as used by the signature check). -/
def sha1 (msg : Bytes) : Bytes :=
  let p := shaPad msg
  let f := (chunksOf 64 p.length p).foldl sha1Block
    ⟨0x67452301, 0xEFCDAB89, 0x98BADCFE, 0x10325476, 0xC3D2E1F0⟩
  word32be f.a ++ word32be f.b ++ word32be f.c ++ word32be f.d ++ word32be f.e

/-- Working state of the SHA-256 compression function. -/
structure Sha256State where
  a : Nat
  b : Nat
  c : Nat
  d : Nat
  e : Nat
  f : Nat
  g : Nat
  h : Nat

/-- The 64 SHA-256 round constants (decimal). -/
def sha256K : List Nat :=
  [1116352408, 1899447441, 3049323471, 3921009573, 961987163, 1508970993,
   2453635748, 2870763221, 3624381080, 310598401, 607225278, 1426881987,
   1925078388, 2162078206, 2614888103, 3248222580, 3835390401, 4022224774,
   264347078, 604807628, 770255983, 1249150122, 1555081692, 1996064986,
   2554220882, 2821834349, 2952996808, 3210313671, 3336571891, 3584528711,
   113926993, 338241895, 666307205, 773529912, 1294757372, 1396182291,
   1695183700, 1986661051, 2177026350, 2456956037, 2730485921, 2820302411,
   3259730800, 3345764771, 3516065817, 3600352804, 4094571909, 275423344,
   430227734, 506948616, 659060556, 883997877, 958139571, 1322822218,
   1537002063, 1747873779, 1955562222, 2024104815, 2227730452, 2361852424,
   2428436474, 2756734187, 3204031479, 3329325298]

/-- Extend the 16 message words of a SHA-256 block by `n` schedule words. -/
def sha256Extend : Nat → List Nat → List Nat
  | 0, w => w
  | n + 1, w =>
    let w15 := w.getD (w.length - 15) 0
    let w2 := w.getD (w.length - 2) 0
    let s0 := Nat.xor (Nat.xor (rotr32 7 w15) (rotr32 18 w15)) (Nat.shiftRight w15 3)
    let s1 := Nat.xor (Nat.xor (rotr32 17 w2) (rotr32 19 w2)) (Nat.shiftRight w2 10)
    let t := w32 (w.getD (w.length - 16) 0 + s0 + w.getD (w.length - 7) 0 + s1)
    sha256Extend n (w ++ [t])

/-- One SHA-256 round step on the working state, given `(k constant, word)`. -/
def sha256Round (st : Sha256State) (kw : Nat × Nat) : Sha256State :=
  let s1 := Nat.xor (Nat.xor (rotr32 6 st.e) (rotr32 11 st.e)) (rotr32 25 st.e)
  let ch := Nat.xor (Nat.land st.e st.f) (Nat.land (Nat.xor st.e 0xFFFFFFFF) st.g)
  let t1 := w32 (st.h + s1 + ch + kw.1 + kw.2)
  let s0 := Nat.xor (Nat.xor (rotr32 2 st.a) (rotr32 13 st.a)) (rotr32 22 st.a)
  let mj := Nat.xor (Nat.xor (Nat.land st.a st.b) (Nat.land st.a st.c)) (Nat.land st.b st.c)
  let t2 := w32 (s0 + mj)
  ⟨w32 (t1 + t2), st.a, st.b, st.c, w32 (st.d + t1), st.e, st.f, st.g⟩

/-- SHA-256 compression of one 64-byte block into the chaining state. -/
def sha256Block (h : Sha256State) (block : Bytes) : Sha256State :=
  let ws := sha256Extend 48 ((chunksOf 4 16 block).map beWord)
  let st := (sha256K.zip ws).foldl sha256Round h
  ⟨w32 (h.a + st.a), w32 (h.b + st.b), w32 (h.c + st.c), w32 (h.d + st.d),
   w32 (h.e + st.e), w32 (h.f + st.f), w32 (h.g + st.g), w32 (h.h + st.h)⟩

/-- SHA-256 of a byte string (crypto/sha256 as used by the cache key hash). -/
def sha256 (msg : Bytes) : Bytes :=
  let p := shaPad msg
  let f := (chunksOf 64 p.length p).foldl sha256Block
    ⟨1779033703, 3144134277, 1013904242, 2773480762, 1359893119, 2600822924, 528734635, 1541459225⟩
  word32be f.a ++ word32be f.b ++ word32be f.c ++ word32be f.d ++
    word32be f.e ++ word32be f.f ++ word32be f.g ++ word32be f.h

/-- Lowercase hexadecimal digit. -/
def hexDigit (n : Nat) : Char := if n < 10 then Char.ofNat (48 + n) else Char.ofNat (87 + n)

/-- Lowercase hexadecimal rendering of a byte string, Go `fmt.Sprintf("%x", bs)`. -/
def bytesToHex (bs : Bytes) : String :=
  String.mk (bs.flatMap (fun b => [hexDigit (b / 16), hexDigit (b % 16)]))

/-- Sha256Hash (internal/cache): hex-encoded SHA-256 of the key string. -/
def Sha256Hash (data : String) : String := bytesToHex (sha256 (strBytes data))

/-- HMAC key preparation (crypto/hmac with SHA-1): a key longer than the
64-byte block size is first hashed; the key is then zero-padded to 64 bytes. -/
def hmacKey64 (key : Bytes) : Bytes :=
  let k := if 64 < key.length then sha1 key else key
  k ++ List.replicate (64 - k.length) 0

/-- HMAC-SHA1 (crypto/hmac): outer and inner pads are the prepared key XORed
with 0x5C and 0x36 respectively. -/
def hmacSha1 (key msg : Bytes) : Bytes :=
  let k0 := hmacKey64 key
  sha1 ((k0.map (Nat.xor 0x5C)) ++ sha1 ((k0.map (Nat.xor 0x36)) ++ msg))

/-- The URL-safe base64 alphabet (encoding/base64 URLEncoding). -/
def b64UrlAlphabet : List Char :=
  "ABCDEFGHIJKLMNOPQRSTUVWXYZabcdefghijklmnopqrstuvwxyz0123456789-_".toList

/-- Character for a 6-bit group. -/
def b64c (n : Nat) : Char := b64UrlAlphabet.getD n 'A'

/-- URL-safe base64 encoding with padding retained, three input bytes at a
time (encoding/base64 URLEncoding.EncodeToString). -/
def base64urlChars : Bytes → List Char
  | [] => []
  | [b1] => [b64c (b1 / 4), b64c (b1 % 4 * 16), '=', '=']
  | [b1, b2] => [b64c (b1 / 4), b64c (b1 % 4 * 16 + b2 / 16), b64c (b2 % 16 * 4), '=']
  | b1 :: b2 :: b3 :: rest =>
    b64c (b1 / 4) :: b64c (b1 % 4 * 16 + b2 / 16) :: b64c (b2 % 16 * 4 + b3 / 64) ::
      b64c (b3 % 64) :: base64urlChars rest

/-- URL-safe base64 encoding as a string. -/
def base64urlEncode (bs : Bytes) : String := String.mk (base64urlChars bs)

/-- The one signature string the verifier accepts for a secret and canonical
path: base64url of HMAC-SHA1 of the path under the secret. -/
def expectedSignature (secret imagePath : String) : String :=
  base64urlEncode (hmacSha1 (strBytes secret) (strBytes imagePath))

/-- validateSignature (internal/server/server.go): compare the base64url HMAC
of the canonical path against the supplied signature string. -/
def validateSignature (secret signature imagePath : String) : Bool :=
  expectedSignature secret imagePath == signature

/-- Little-endian 4-byte encoding of a 32-bit length
(binary.LittleEndian.PutUint32; Go truncates the length to uint32). -/
def putUint32le (n : Nat) : Bytes := [n % 256, n / 256 % 256, n / 65536 % 256, n / 16777216 % 256]

/-- Little-endian 32-bit value of the first four bytes
(binary.LittleEndian.Uint32). -/
def leUint32 (b : Bytes) : Nat :=
  b.getD 0 0 + 256 * b.getD 1 0 + 65536 * b.getD 2 0 + 16777216 * b.getD 3 0

/-- concatenateContentTypeAndData (internal/server/server.go): 4-byte
little-endian length of the content type, the content type, then the data. -/
def concatenateContentTypeAndData (contentType data : Bytes) : Bytes :=
  putUint32le contentType.length ++ contentType ++ data

/-- getContentTypeAndData (internal/server/server.go). The Go function slices
`b[:4]` and `b[4:4+size]` unconditionally; `size` is a Go `uint32`, so the
upper slice bound `4+size` is computed modulo 2^32 and wraps below 4 when
`size ≥ 2^32-4`. `none` models the slice-bounds panic raised when the buffer
is shorter than 4 bytes, when the wrapped bound falls below the low bound 4,
or when it exceeds the buffer length. -/
def getContentTypeAndData (b : Bytes) : Option (Bytes × Bytes) :=
  if 4 ≤ b.length then
    let size := leUint32 (b.take 4)
    let high := (4 + size) % 4294967296
    if 4 ≤ high ∧ high ≤ b.length then some ((b.drop 4).take (high - 4), b.drop high)
    else none
  else none

/-- Abstract state of one KV cache. `store` is the committed contents keyed by
the string handed to Get/Put; the two failure tables inject the I/O errors the
backing filesystem may return for a given key. -/
structure CacheState where
  store : String → Option Bytes
  getFailure : String → Bool
  putFailure : String → Bool

/-- Cache.Get of the interface (internal/cache): an absent entry is `ok none`,
distinct from an error. -/
def cacheGet (c : CacheState) (key : String) : Except String (Option Bytes) :=
  if c.getFailure key then .error "get error" else .ok (c.store key)

/-- Cache.Put of the interface (internal/cache): on success the entry is
committed under the supplied key. -/
def cachePut (c : CacheState) (key : String) (data : Bytes) : Except String CacheState :=
  if c.putFailure key then .error "put error"
  else .ok { c with store := fun k => if k == key then some data else c.store k }

/-- Result of GetCachedOrFetch together with the resulting cache state and
instrumentation recording whether `fetch` and `Put` were invoked. -/
structure FetchOutcome where
  result : Except String Bytes
  state : CacheState
  fetchInvoked : Bool
  putInvoked : Bool

/-- GetCachedOrFetch (internal/cache): hash the key with SHA-256 hex, read the
cache, return a hit; on a miss invoke `fetch`, put the result, return it.
Every error path returns `nil` bytes in Go, so the Lean result carries only
the error. -/
def GetCachedOrFetch (c : CacheState) (key : String) (fetch : Except String Bytes) :
    FetchOutcome :=
  let keyHashed := Sha256Hash key
  match cacheGet c keyHashed with
  | .error e => ⟨.error ("failed to fetch from cache: " ++ e), c, false, false⟩
  | .ok (some cachedImage) => ⟨.ok cachedImage, c, false, false⟩
  | .ok none =>
    match fetch with
    | .error e => ⟨.error ("failed to fetch from upstream: " ++ e), c, true, false⟩
    | .ok img =>
      match cachePut c keyHashed img with
      | .error e => ⟨.error ("failed to put to cache: " ++ e), c, true, true⟩
      | .ok c2 => ⟨.ok img, c2, true, true⟩

/-- Filesystem contents: path ↦ file bytes. -/
structure Fs where
  files : String → Option Bytes

/-- Go path.Join of a clean directory and a relative file name. -/
def pathJoin (dir name : String) : String := dir ++ "/" ++ name

/-- FsCache (internal/cache/fscache.go): a directory-backed store. -/
structure FsCache where
  cachePath : String

/-- FsCache.Get: open `path.Join(cachePath, key)`; a missing file is `none`
(the Go code maps os.IsNotExist to `nil, nil`). I/O faults other than
non-existence are not modelled here. -/
def FsCache.Get (c : FsCache) (fs : Fs) (key : String) : Option Bytes :=
  fs.files (pathJoin c.cachePath key)

/-- FsCache.Put: create `path.Join(cachePath, key)` and write the data. -/
def FsCache.Put (c : FsCache) (fs : Fs) (key : String) (data : Bytes) : Fs :=
  ⟨fun p => if p == pathJoin c.cachePath key then some data else fs.files p⟩

/-- Server configuration fields relevant to request validation. -/
structure ServerConfig where
  secret : String
  enableUnsafe : Bool

/-- HTTPError (internal/server/server.go). -/
structure HTTPError where
  code : Nat
  message : String
  origError : Option String
deriving DecidableEq

/-- Go (*HTTPError).Error(): `"%d: %s: %s"`; a nil wrapped error renders as
`"%!s(<nil>)"` under the `%s` verb. -/
def HTTPError.errString (e : HTTPError) : String :=
  toString e.code ++ ": " ++ e.message ++ ": " ++ e.origError.getD "%!s(<nil>)"

/-- RequestInfo (internal/server/server.go), with the decoded parameters of
the endpoint-specific type. -/
structure RequestInfo (T : Type) where
  signature : String
  mediaPath : String
  requestParams : T

/-- Go strings.TrimSuffix(s, "/"): drop one trailing slash if present. -/
def trimSuffixSlash (s : String) : String :=
  match s.toList.reverse with
  | '/' :: rest => String.mk rest.reverse
  | _ => s

/-- The canonical string signed by the client:
`"<kind>/<mediaPath>[?<rawQuery>]"` (getRequestInfo). -/
def canonicalPath (requestType mediaPath rawQuery : String) : String :=
  if rawQuery == "" then requestType ++ "/" ++ mediaPath
  else requestType ++ "/" ++ mediaPath ++ "?" ++ rawQuery

/-- getRequestInfo (internal/server/server.go): signature check in safe mode,
then trailing-slash strip, then query decode. The gorilla/schema decoder is
external; its outcome is passed in as `parseQuery`. -/
def getRequestInfo {T : Type} (cfg : ServerConfig) (requestType signature mediaPath rawQuery : String)
    (parseQuery : Except String T) : Except HTTPError (RequestInfo T) :=
  if !cfg.enableUnsafe &&
      !(validateSignature cfg.secret signature (canonicalPath requestType mediaPath rawQuery)) then
    .error ⟨403, "Invalid signature", none⟩
  else
    match parseQuery with
    | .error e => .error ⟨400, "Failed to parse query", some e⟩
    | .ok p => .ok ⟨signature, trimSuffixSlash mediaPath, p⟩

/-- Everything a handler can do to the connection. A Go runtime panic is an
explicit constructor: no response line is written on that path. -/
inductive HandlerOutcome where
  | errorResponse (status : Nat) (body : String)
  | transformSuccess (contentType : Bytes) (cacheControl : String) (contentLength : Nat) (body : Bytes)
  | metadataSuccess (contentType : String) (body : Bytes)
  | panicked (msg : String)
deriving DecidableEq

/-- handleTransformRequest (server package): request-info errors are written
with http.Error(..., http.StatusInternalServerError); the framed cache entry
is unframed before the error of the cache/fetch pipeline is inspected, on nil
bytes when that pipeline failed. `pipelineResult` abstracts the
GetCachedOrFetch call on the result cache. -/
def handleTransformRequest {T : Type} (cfg : ServerConfig) (signature mediaPath rawQuery : String)
    (parseQuery : Except String T) (pipelineResult : Except String Bytes) : HandlerOutcome :=
  match getRequestInfo cfg "media" signature mediaPath rawQuery parseQuery with
  | .error e => .errorResponse 500 e.errString
  | .ok _ =>
    let out : Bytes := match pipelineResult with | .ok b => b | .error _ => []
    match getContentTypeAndData out with
    | none => .panicked "runtime error: slice bounds out of range"
    | some (contentType, data) =>
      match pipelineResult with
      | .error e => .errorResponse 500 e
      | .ok _ =>
        .transformSuccess contentType "public, max-age=31536000, immutable" data.length data

/-- handleMetadataRequest (internal/server/metadata.go): request-info errors
are written with status 500; pipeline errors are written with status 500;
success writes the JSON bytes. -/
def handleMetadataRequest {T : Type} (cfg : ServerConfig) (signature mediaPath rawQuery : String)
    (parseQuery : Except String T) (pipelineResult : Except String Bytes) : HandlerOutcome :=
  match getRequestInfo cfg "metadata" signature mediaPath rawQuery parseQuery with
  | .error e => .errorResponse 500 e.errString
  | .ok _ =>
    match pipelineResult with
    | .error e => .errorResponse 500 e
    | .ok out => .metadataSuccess "application/json" out

/-- Go strings.Split for a one-character separator, accumulator form. -/
def splitCharAux (sep : Char) : List Char → List Char → List (List Char)
  | [], acc => [acc.reverse]
  | c :: cs, acc =>
    if c = sep then acc.reverse :: splitCharAux sep cs []
    else splitCharAux sep cs (c :: acc)

/-- Go strings.Split with a one-character separator; the split of the empty
string is one empty field, as in Go. -/
def splitChar (sep : Char) (s : String) : List String :=
  (splitCharAux sep s.toList []).map String.mk

/-- Go strings.HasPrefix. -/
def strStartsWith (s pre : String) : Bool := pre.toList.isPrefixOf s.toList

/-- ASCII white space, the fragment of Unicode space relevant here. -/
def isSpaceChar (c : Char) : Bool :=
  c = ' ' || c = '\t' || c = '\n' || c = '\x0b' || c = '\x0c' || c = '\r'

/-- Go strings.TrimSpace restricted to ASCII white space. -/
def strTrimSpace (s : String) : String :=
  String.mk (((s.toList.dropWhile isSpaceChar).reverse.dropWhile isSpaceChar).reverse)

/-- The Accept-scan loop of handleTransformRequest: skip the exact entry
`image/avif`; take the first remaining entry beginning with `image/`,
trimmed; otherwise keep the sniffed default. -/
def selectLoop (dflt : String) : List String → String
  | [] => dflt
  | e :: rest =>
    if e == "image/avif" then selectLoop dflt rest
    else if strStartsWith e "image/" then strTrimSpace e
    else selectLoop dflt rest

/-- Content-type selection from the Accept header (handleTransformRequest,
outputFormat empty): comma-split scan over the header. -/
def selectAcceptContentType (dflt accept : String) : String :=
  selectLoop dflt (splitChar ',' accept)

/-- The content-type → outputFormat switch of handleTransformRequest. -/
def autoOutputFormat (contentType : String) : String :=
  if contentType == "image/webp" then "webp"
  else if contentType == "image/jpeg" then "jpeg"
  else if contentType == "image/png" then "png"
  else if contentType == "image/avif" then "avif"
  else if contentType == "image/apng" then "apng"
  else "png"

/-- Output-format resolution of handleTransformRequest: only an empty
client-supplied outputFormat triggers Accept-based selection. -/
def resolveOutputFormat (outputFormat dflt accept : String) : String :=
  if outputFormat == "" then autoOutputFormat (selectAcceptContentType dflt accept)
  else outputFormat

/-- parseVipsInteresting (media processor): the crop strategy table. Only
the resulting error/success split matters here, so the vips constant is
returned as its govips integer value. -/
def parseVipsInteresting (interesting : String) : Except String Nat :=
  if interesting == "none" || interesting == "" then .ok 0
  else if interesting == "centre" then .ok 1
  else if interesting == "entropy" then .ok 2
  else if interesting == "attention" then .ok 3
  else if interesting == "low" then .ok 4
  else if interesting == "high" then .ok 5
  else if interesting == "all" then .ok 6
  else if interesting == "last" then .ok 7
  else .error ("invalid interesting parameter: " ++ interesting)

/-- parseVipsSize (media processor): the size strategy table. -/
def parseVipsSize (size : String) : Except String Nat :=
  if size == "both" || size == "" then .ok 0
  else if size == "up" then .ok 1
  else if size == "down" then .ok 2
  else if size == "force" then .ok 3
  else if size == "last" then .ok 4
  else .error ("invalid size parameter: " ++ size)

/-- The missing-dimension computation of ProcessTransformRequest (media
processor): a zero requested width is recomputed from the height and the
source aspect ratio, then a zero requested height from the (possibly just
recomputed) width. Go `int` division truncates toward zero, `Int.tdiv`.
The division-by-zero panic is not modelled; a loaded image has positive
dimensions. -/
def computeThumbnailSize (resizeWidth resizeHeight srcWidth srcHeight : Int) : Int × Int :=
  let width := if resizeWidth = 0 then Int.tdiv (resizeHeight * srcWidth) srcHeight else resizeWidth
  let height := if resizeHeight = 0 then Int.tdiv (width * srcHeight) srcWidth else resizeHeight
  (width, height)

/-- Empty, fault-free cache state used in concrete instances. -/
def emptyCache : CacheState := ⟨fun _ => none, fun _ => false, fun _ => false⟩

/-- Cache state whose backing writes always fail. -/
def putFailCache : CacheState := ⟨fun _ => none, fun _ => false, fun _ => true⟩

/-- The one-byte secret string `a`. -/
def secretA : String := "a"

/-- The secret `a` followed by one NUL byte. -/
def secretA0 : String := String.mk ['a', Char.ofNat 0]

theorem sha1_test_abc :
    sha1 (strBytes "abc") =
      [0xa9, 0x99, 0x3e, 0x36, 0x47, 0x06, 0x81, 0x6a, 0xba, 0x3e,
       0x25, 0x71, 0x78, 0x50, 0xc2, 0x6c, 0x9c, 0xd0, 0xd8, 0x9d] := by decide

theorem sha256_test_abc :
    Sha256Hash "abc" = "ba7816bf8f01cfea414140de5dae2223b00361a396177a9cb410ff61f20015ad" := by decide

theorem hmacSha1_test_rfc2202 :
    bytesToHex (hmacSha1 (strBytes "key") (strBytes "The quick brown fox jumps over the lazy dog")) =
      "de7c9b85b8b78aa6bc8a7a36f70a90701c9db4d9" := by decide

theorem base64url_test_padding :
    base64urlEncode (strBytes "any carnal pleasure.") = "YW55IGNhcm5hbCBwbGVhc3VyZS4=" := by decide

theorem base64url_test_urlsafe_chars : base64urlEncode [0xFB, 0xFF] = "-_8=" := by decide

theorem length_putUint32le (n : Nat) : (putUint32le n).length = 4 := rfl

theorem leUint32_putUint32le (n : Nat) (h : n < 4294967296) :
    leUint32 (putUint32le n) = n := by
  simp [leUint32, putUint32le, List.getD]
  omega

/-- C4 amended: for every content type with fewer than 2^32 - 4 bytes and
arbitrary data, unframing the framed entry returns the original pair
(getContentTypeAndData ∘ concatenateContentTypeAndData). -/
theorem framing_roundtrip (contentType data : Bytes) (h : contentType.length < 4294967292) :
    getContentTypeAndData (concatenateContentTypeAndData contentType data) =
      some (contentType, data) := by
  have htake : (putUint32le contentType.length ++ (contentType ++ data)).take 4 =
      putUint32le contentType.length := by
    rw [show 4 = (putUint32le contentType.length).length from rfl, List.take_left]
  have hdrop : (putUint32le contentType.length ++ (contentType ++ data)).drop 4 =
      contentType ++ data := by
    rw [show 4 = (putUint32le contentType.length).length from rfl, List.drop_left]
  have hval : leUint32 (putUint32le contentType.length) = contentType.length :=
    leUint32_putUint32le _ (by omega)
  have hlen : (putUint32le contentType.length ++ (contentType ++ data)).length =
      4 + (contentType.length + data.length) := by
    simp [length_putUint32le]
  have hmod : (4 + contentType.length) % 4294967296 = 4 + contentType.length :=
    Nat.mod_eq_of_lt (by omega)
  have hsub : 4 + contentType.length - 4 = contentType.length := by omega
  have hdropBig : (putUint32le contentType.length ++ (contentType ++ data)).drop
      (4 + contentType.length) = data := by
    rw [← List.drop_drop, hdrop, List.drop_left]
  have h4 : 4 ≤ 4 + (contentType.length + data.length) := by omega
  have hcond : 4 ≤ 4 + contentType.length ∧
      4 + contentType.length ≤ 4 + (contentType.length + data.length) := ⟨by omega, by omega⟩
  simp only [concatenateContentTypeAndData, getContentTypeAndData, List.append_assoc,
    htake, hdrop, hval, hlen, hmod, hsub, hdropBig, h4, hcond, and_self, if_true,
    ite_true, List.take_left]

theorem framing_roundtrip_witness :
    getContentTypeAndData (concatenateContentTypeAndData (strBytes "image/png") (strBytes "DATA")) =
      some (strBytes "image/png", strBytes "DATA") :=
  framing_roundtrip _ _ (by decide)

/-- For a content type whose length lies in the top four values below 2^32,
the wrapped uint32 slice bound falls below 4 and the unframe panics. -/
theorem getContentTypeAndData_wrap (contentType data : Bytes)
    (h1 : 4294967292 ≤ contentType.length) (h2 : contentType.length < 4294967296) :
    getContentTypeAndData (concatenateContentTypeAndData contentType data) = none := by
  have htake : (putUint32le contentType.length ++ (contentType ++ data)).take 4 =
      putUint32le contentType.length := by
    rw [show 4 = (putUint32le contentType.length).length from rfl, List.take_left]
  have hval : leUint32 (putUint32le contentType.length) = contentType.length :=
    leUint32_putUint32le _ h2
  have hlen : (putUint32le contentType.length ++ (contentType ++ data)).length =
      4 + (contentType.length + data.length) := by
    simp [length_putUint32le]
  have h4 : 4 ≤ 4 + (contentType.length + data.length) := by omega
  have hwrapcond : ¬(4 ≤ (4 + contentType.length) % 4294967296 ∧
      (4 + contentType.length) % 4294967296 ≤ 4 + (contentType.length + data.length)) := by
    intro hc
    have := hc.1
    omega
  simp only [concatenateContentTypeAndData, getContentTypeAndData, List.append_assoc,
    htake, hval, hlen, h4, hwrapcond, if_true, ite_true, if_false, ite_false]

/-- C4 fails as stated: at a content type of exactly 2^32 - 4 bytes (allowed
by the claim's bound) the Go uint32 bound 4+size wraps to 0, the slice
expression panics, and the round trip does not return the pair. -/
theorem framing_wrap_counterexample :
    getContentTypeAndData
        (concatenateContentTypeAndData (List.replicate 4294967292 48) []) = none ∧
    getContentTypeAndData (concatenateContentTypeAndData (List.replicate 4294967292 48) []) ≠
      some (List.replicate 4294967292 48, []) := by
  have hnone : getContentTypeAndData
      (concatenateContentTypeAndData (List.replicate 4294967292 48) []) = none :=
    getContentTypeAndData_wrap _ _ (by rw [List.length_replicate])
      (by rw [List.length_replicate]; omega)
  refine ⟨hnone, ?_⟩
  intro hcontra
  rw [hnone] at hcontra
  exact Option.noConfusion hcontra

/-- C5: GetCachedOrFetch returns a present entry without invoking fetch; on
an absent read it invokes fetch, writes the bytes under the hashed key and
returns them; a fetch error is returned with the cache untouched and no Put
performed. -/
theorem getCachedOrFetch_spec (c : CacheState) (key : String) (fetch : Except String Bytes) :
    (∀ v, cacheGet c (Sha256Hash key) = .ok (some v) →
      GetCachedOrFetch c key fetch = ⟨.ok v, c, false, false⟩) ∧
    (∀ b c2, cacheGet c (Sha256Hash key) = .ok none → fetch = .ok b →
      cachePut c (Sha256Hash key) b = .ok c2 →
      GetCachedOrFetch c key fetch = ⟨.ok b, c2, true, true⟩ ∧
        c2.store (Sha256Hash key) = some b) ∧
    (∀ e, cacheGet c (Sha256Hash key) = .ok none → fetch = .error e →
      GetCachedOrFetch c key fetch =
        ⟨.error ("failed to fetch from upstream: " ++ e), c, true, false⟩) := by
  refine ⟨?_, ?_, ?_⟩
  · intro v hget
    simp only [GetCachedOrFetch, hget]
  · intro b c2 hget hf hput
    constructor
    · simp only [GetCachedOrFetch, hget, hf, hput]
    · unfold cachePut at hput
      split at hput
      · exact absurd hput (by simp)
      · cases hput
        simp
  · intro e hget hf
    simp only [GetCachedOrFetch, hget, hf]

theorem getCachedOrFetch_spec_witness :
    (GetCachedOrFetch emptyCache "k" (.error "boom")).result =
        .error "failed to fetch from upstream: boom" ∧
    (GetCachedOrFetch emptyCache "k" (.error "boom")).putInvoked = false ∧
    (GetCachedOrFetch emptyCache "k" (.error "boom")).state = emptyCache := by
  have h := (getCachedOrFetch_spec emptyCache "k" (.error "boom")).2.2 "boom" rfl rfl
  rw [h]
  exact ⟨rfl, rfl, rfl⟩

/-- C6 fails on the code: when fetch succeeds but the cache write fails,
GetCachedOrFetch returns the wrapped Put error, not the computed bytes. -/
theorem getCachedOrFetch_putError_counterexample :
    (GetCachedOrFetch putFailCache "k" (.ok [1, 2, 3])).result =
        .error "failed to put to cache: put error" ∧
    (GetCachedOrFetch putFailCache "k" (.ok [1, 2, 3])).result ≠ .ok [1, 2, 3] := by
  refine ⟨rfl, ?_⟩
  intro hcontra
  rw [show (GetCachedOrFetch putFailCache "k" (.ok [1, 2, 3])).result =
      .error "failed to put to cache: put error" from rfl] at hcontra
  exact Except.noConfusion hcontra

/-- C6 amended: on an absent read where fetch succeeds and the cache write
fails, GetCachedOrFetch returns the wrapped Put error, so the computed result
is not served; the failure is not merely logged. -/
theorem getCachedOrFetch_putError (c : CacheState) (key : String) (b : Bytes)
    (hget : cacheGet c (Sha256Hash key) = .ok none)
    (hput : c.putFailure (Sha256Hash key) = true) :
    (GetCachedOrFetch c key (.ok b)).result = .error "failed to put to cache: put error" := by
  simp only [GetCachedOrFetch, hget, cachePut, hput]
  rfl

theorem getCachedOrFetch_putError_witness :
    (GetCachedOrFetch putFailCache "abc" (.ok [7])).result =
      .error "failed to put to cache: put error" :=
  getCachedOrFetch_putError putFailCache "abc" [7] rfl rfl

/-- C7 fails on the code: FsCache.Put writes the file named by the raw key,
not by its SHA-256 hex digest. -/
theorem fsCache_rawKey_counterexample :
    (FsCache.Put ⟨"/tmp/cache/result"⟩ ⟨fun _ => none⟩ "abc" [1]).files
        (pathJoin "/tmp/cache/result" "abc") = some [1] ∧
    (FsCache.Put ⟨"/tmp/cache/result"⟩ ⟨fun _ => none⟩ "abc" [1]).files
        (pathJoin "/tmp/cache/result" (Sha256Hash "abc")) = none := by
  constructor
  · simp [FsCache.Put]
  · decide

/-- C7 amended: FsCache itself stores the payload under the raw key path; the
SHA-256 hashing is performed by GetCachedOrFetch, which hands the hex digest
to Get/Put, so pipeline entries are committed under the digest key. -/
theorem fsCache_key_discipline (c : FsCache) (fs : Fs) (key : String) (data : Bytes)
    (cs : CacheState) (b : Bytes)
    (hget : cacheGet cs (Sha256Hash key) = .ok none)
    (hput : cs.putFailure (Sha256Hash key) = false) :
    (FsCache.Put c fs key data).files (pathJoin c.cachePath key) = some data ∧
    FsCache.Get c (FsCache.Put c fs key data) key = some data ∧
    (GetCachedOrFetch cs key (.ok b)).state.store (Sha256Hash key) = some b := by
  refine ⟨by simp [FsCache.Put], by simp [FsCache.Get, FsCache.Put], ?_⟩
  simp only [GetCachedOrFetch, hget, cachePut, hput]
  simp

theorem fsCache_key_discipline_witness :
    (FsCache.Put ⟨"d"⟩ ⟨fun _ => none⟩ "k" [2]).files (pathJoin "d" "k") = some [2] ∧
    FsCache.Get ⟨"d"⟩ (FsCache.Put ⟨"d"⟩ ⟨fun _ => none⟩ "k" [2]) "k" = some [2] ∧
    (GetCachedOrFetch emptyCache "k" (.ok [3])).state.store (Sha256Hash "k") = some [3] :=
  fsCache_key_discipline ⟨"d"⟩ ⟨fun _ => none⟩ "k" [2] emptyCache [3] rfl rfl

/-- C2 amended: the verifier accepts a signature exactly when it equals the
base64url HMAC-SHA1 of the canonical path under the secret, so each
(secret, path) pair accepts exactly one signature string. (Changing the
secret does not always change the accepted signature; see the
counterexample.) -/
theorem validateSignature_spec (secret signature imagePath : String) :
    (validateSignature secret signature imagePath = true ↔
      signature = expectedSignature secret imagePath) ∧
    ∃! sig : String, validateSignature secret sig imagePath = true := by
  have hiff : validateSignature secret signature imagePath = true ↔
      signature = expectedSignature secret imagePath := by
    unfold validateSignature
    rw [beq_iff_eq]
    exact eq_comm
  refine ⟨hiff, expectedSignature secret imagePath, ?_, ?_⟩
  · simp [validateSignature]
  · intro y hy
    have : expectedSignature secret imagePath == y := hy
    exact (eq_of_beq this).symm

theorem validateSignature_spec_witness :
    validateSignature "s" (expectedSignature "s" "media/cat.jpg") "media/cat.jpg" = true :=
  ((validateSignature_spec "s" (expectedSignature "s" "media/cat.jpg") "media/cat.jpg").1).mpr rfl

/-- C2 fails as stated: HMAC-SHA1 zero-pads secrets shorter than the 64-byte
block, so the distinct secrets `a` and `a` + NUL accept exactly the same
signature for the same canonical path. -/
theorem validateSignature_collision_counterexample :
    secretA ≠ secretA0 ∧
    expectedSignature secretA "media/cat.jpg" = expectedSignature secretA0 "media/cat.jpg" ∧
    validateSignature secretA0 (expectedSignature secretA "media/cat.jpg") "media/cat.jpg" = true := by
  have hkey : hmacKey64 (strBytes secretA) = hmacKey64 (strBytes secretA0) := by decide
  have hexp : expectedSignature secretA "media/cat.jpg" =
      expectedSignature secretA0 "media/cat.jpg" := by
    simp only [expectedSignature, hmacSha1, hkey]
  refine ⟨by decide, hexp, ?_⟩
  unfold validateSignature
  rw [hexp]
  simp

/-- C1 (code bug in the handlers): in safe mode a request with a wrong
signature is answered with HTTP status 500 on both endpoints — the handlers
pass http.StatusInternalServerError to http.Error and the 403 of the
constructed HTTPError survives only inside the body text. -/
theorem invalidSignature_responds_500_not_403 :
    handleTransformRequest ⟨"s", false⟩ "BAD" "cat.jpg" "" (Except.ok ()) (.ok [0, 0, 0, 0]) =
      .errorResponse 500 "403: Invalid signature: %!s(<nil>)" ∧
    handleMetadataRequest ⟨"s", false⟩ "BAD" "cat.jpg" "" (Except.ok ()) (.ok [123, 125]) =
      .errorResponse 500 "403: Invalid signature: %!s(<nil>)" := by
  constructor
  · decide
  · decide

/-- C3 (code bug): whenever the transform pipeline (origin fetch, engine, or
cache read/write) returns an error, the handler unframes the nil buffer
before inspecting the error and panics on the out-of-bounds slice, so no 500
response is produced. -/
theorem transform_errorPath_panics (signature mediaPath rawQuery e : String) :
    handleTransformRequest ⟨"", true⟩ signature mediaPath rawQuery (Except.ok ()) (.error e) =
      .panicked "runtime error: slice bounds out of range" := rfl

/-- C8 (code bug): a query-decode failure is answered with status 500 (the
400 code survives only in the body); an invalid crop value is rejected in the
engine, surfaces as a pipeline error, and makes the transform handler panic
rather than answer 400. -/
theorem badQuery_not_400 :
    handleTransformRequest ⟨"", true⟩ "sig" "cat.jpg" "resize.width=abc"
        (Except.error "schema: error converting value" : Except String Unit) (.ok [0, 0, 0, 0]) =
      .errorResponse 500 "400: Failed to parse query: schema: error converting value" ∧
    parseVipsInteresting "bogus" = .error "invalid interesting parameter: bogus" ∧
    handleTransformRequest ⟨"", true⟩ "sig" "cat.jpg" "resize.crop=bogus" (Except.ok ())
        (.error "invalid crop parameter: invalid interesting parameter: bogus") =
      .panicked "runtime error: slice bounds out of range" := by
  exact ⟨rfl, rfl, rfl⟩

/-- C9: when exactly one of the requested dimensions is zero, the engine
computes the missing one as other * src_missing / src_other with truncating
integer division; for a 1000 by 500 source both (200, 0) and (0, 100)
become (200, 100). -/
theorem aspect_resize (w h sw sh : Int) :
    (w = 0 → h ≠ 0 → computeThumbnailSize w h sw sh = (Int.tdiv (h * sw) sh, h)) ∧
    (h = 0 → w ≠ 0 → computeThumbnailSize w h sw sh = (w, Int.tdiv (w * sh) sw)) ∧
    computeThumbnailSize 200 0 1000 500 = (200, 100) ∧
    computeThumbnailSize 0 100 1000 500 = (200, 100) := by
  refine ⟨?_, ?_, by decide, by decide⟩
  · intro hw hh
    subst hw
    simp [computeThumbnailSize, hh]
  · intro hh hw
    subst hh
    simp [computeThumbnailSize, hw]

theorem aspect_resize_witness : computeThumbnailSize 0 100 1000 500 = (200, 100) := by
  have h := (aspect_resize 0 100 1000 500).1 rfl (by decide)
  rw [h]
  decide

theorem selectLoop_eq_find (dflt : String) (es : List String) :
    selectLoop dflt es =
      match es.find? (fun e => !(e == "image/avif") && strStartsWith e "image/") with
      | some e => strTrimSpace e
      | none => dflt := by
  induction es with
  | nil => rfl
  | cons e rest ih =>
    by_cases h1 : e == "image/avif"
    · simp [selectLoop, List.find?_cons, h1, ih]
    · by_cases h2 : strStartsWith e "image/"
      · simp [selectLoop, List.find?_cons, h1, h2]
      · simp [selectLoop, List.find?_cons, h1, h2, ih]

/-- C10: with an empty client outputFormat the selected content type is the
first comma-separated Accept entry beginning with image/ (the exact entry
image/avif is skipped, the chosen entry is space-trimmed), or the sniffed
default when no such entry exists; Accept of just image/avif keeps the
default, and image/webp,image/avif,*slash* selects image/webp. -/
theorem acceptSelection_spec :
    (∀ dflt accept, selectAcceptContentType dflt accept =
      match (splitChar ',' accept).find?
          (fun e => !(e == "image/avif") && strStartsWith e "image/") with
      | some e => strTrimSpace e
      | none => dflt) ∧
    (∀ dflt, selectAcceptContentType dflt "image/avif" = dflt) ∧
    selectAcceptContentType "image/png" "image/webp,image/avif,*/*" = "image/webp" ∧
    (∀ dflt accept, resolveOutputFormat "" dflt accept =
      autoOutputFormat (selectAcceptContentType dflt accept)) := by
  refine ⟨fun dflt accept => selectLoop_eq_find dflt _, fun dflt => rfl, by decide,
    fun dflt accept => rfl⟩

end MediaProxy
